import Mathlib

/-
Verification development for the ChromaRestore local colorization pipelines.

The repository ships a browser-based colorizer.  The per-pixel numeric core of
the shipped implementation (src/services/restorationService.ts,
`processImageLocally`) is embedded below in namespace `RS`, working over exact
rationals in place of JavaScript doubles; the image is a flat RGBA buffer of
8-bit channel values, modelled as a total function from indices to rationals.

A second, near-duplicate variant of the colorizer (the third variant stored in
src/unnamed/part_007, the "v11"-style engine with the five-branch semantic
chain over luminance, entropy and normalized position) is embedded in
namespace `V3`; several claims of the specification describe that chain.
-/

namespace RS

/-- Grading presets, from src/types.ts (`GradingPreset`). -/
inductive Grading
  | none
  | cinematic
  | vintage
  | vibrant
  | sepia
  | artistic
  | stable
deriving DecidableEq

/-- Engine identifiers, from src/types.ts (`EngineType`). -/
inductive Engine
  | «local»
  | opencv
  | paddlehub
deriving DecidableEq

/-- A decoded RGBA raster: width, height, and a flat channel buffer
(index `(y*width+x)*4 + c` holds channel `c` of pixel `(x,y)`). -/
structure Raster where
  width : Nat
  height : Nat
  data : Nat → ℚ

/-- The RasterImage channel-range invariant: every channel value lies in
`[0, 255]`. -/
def Raster.valid (img : Raster) : Prop :=
  ∀ i, 0 ≤ img.data i ∧ img.data i ≤ 255

/-- The tuning configuration, from `RestoreConfig` in
src/services/restorationService.ts. -/
structure Config where
  temp : ℚ
  saturation : ℚ
  contrast : ℚ
  intensity : ℚ
  grading : Grading
  engine : Engine

/-- Final channel clamp: `Math.min(255, Math.max(0, v))`. -/
def clampCh (v : ℚ) : ℚ := min 255 (max 0 v)

/-- Normalized perceptual luminance of pixel `(x, y)`:
`(0.299*R + 0.587*G + 0.114*B) / 255` (restorationService.ts line 50). -/
def lum (img : Raster) (x y : Nat) : ℚ :=
  (299/1000 * img.data ((y * img.width + x) * 4)
    + 587/1000 * img.data ((y * img.width + x) * 4 + 1)
    + 114/1000 * img.data ((y * img.width + x) * 4 + 2)) / 255

/-- The entropy map of restorationService.ts lines 56-62.  The double loop
starts at 1, steps by 2 and stops before `height-1` (resp. `width-1`), so an
entry is written exactly at odd interior coordinates; every other entry of the
`Float32Array` keeps its initial value 0. -/
def entropyRaw (img : Raster) (x y : Nat) : ℚ :=
  if x % 2 = 1 ∧ y % 2 = 1 ∧ x + 1 < img.width ∧ y + 1 < img.height then
    |lum img x y - lum img (x + 1) y| + |lum img x y - lum img x (y + 1)|
  else 0

/-- The entropy value consumed by the pixel loop:
`entropyMap[y*width+x] || 0.05` (line 70); a zero entry falls back to the
constant `0.05`. -/
def entropyUsed (img : Raster) (x y : Nat) : ℚ :=
  if entropyRaw img x y = 0 then 1/20 else entropyRaw img x y

/-- Engine-dependent saturation weight (lines 79-96): 1.25 for 'paddlehub',
1.1 for 'opencv', 1.0 otherwise. -/
def colorWeight : Engine → ℚ
  | .paddlehub => 5/4
  | .opencv => 11/10
  | .«local» => 1

/-- Semantic color target of the shipped engine branches
(restorationService.ts lines 80-107), as an (R, G, B) triple in normalized
space. -/
def target (eng : Engine) (l entropy yPos : ℚ) : ℚ × ℚ × ℚ :=
  match eng with
  | .paddlehub =>
    let textureBoost : ℚ := if entropy > 1/10 then 23/20 else 1
    if yPos < 9/20 ∧ l > 7/20 then
      (l * (7/10), l * (9/10), l * (8/5) * textureBoost)
    else if entropy > 3/20 ∧ yPos > 2/5 then
      (l * (9/10), l * (29/20) * textureBoost, l * (3/4))
    else if l > 1/4 ∧ l < 17/20 then
      (l * (3/2) * textureBoost, l * (23/20), l * (9/10))
    else
      (l * (11/10), l * (21/20), l * (19/20))
  | .opencv =>
    if l > 2/5 ∧ l < 9/10 then
      (l * (13/10), l * (11/10), l * (19/20))
    else if yPos < 7/20 then
      (l * (17/20), l * (19/20), l * (5/4))
    else
      (l * (21/20), l * 1, l * (49/50))
  | .«local» => (l * (23/20), l * (21/20), l * (9/10))

/-- Temperature stage (lines 110-111): add `tOffset` to R, subtract it
from B. -/
def tempStage (off : ℚ) (t : ℚ × ℚ × ℚ) : ℚ × ℚ × ℚ :=
  (t.1 + off, t.2.1, t.2.2 - off)

/-- Intensity blend (lines 114-116): `orig*(1-intensity) + target*intensity`
per channel. -/
def blendStage (intensity : ℚ) (orig tgt : ℚ × ℚ × ℚ) : ℚ × ℚ × ℚ :=
  (orig.1 * (1 - intensity) + tgt.1 * intensity,
   orig.2.1 * (1 - intensity) + tgt.2.1 * intensity,
   orig.2.2 * (1 - intensity) + tgt.2.2 * intensity)

/-- Grading presets of the shipped service (lines 119-132).  Note the sepia
offsets are 0.15 and 0.08. -/
def grade (g : Grading) (t : ℚ × ℚ × ℚ) : ℚ × ℚ × ℚ :=
  match g with
  | .artistic => (t.1 * (5/4), t.2.1 * (11/10), t.2.2 * (27/20))
  | .stable => (t.1 * (9/10) + 1/20, t.2.1 * (9/10) + 1/20, t.2.2 * (9/10) + 1/20)
  | .cinematic => (t.1 * (11/10), t.2.1 * (19/20), t.2.2 * (13/10))
  | .vibrant => (t.1 * (13/10), t.2.1 * (13/10), t.2.2 * (13/10))
  | .vintage => (t.1 + 2/25, t.2.1 + 1/25, t.2.2 - 1/50)
  | .sepia =>
    ((t.1 + t.2.1 + t.2.2) / 3 + 3/20,
     (t.1 + t.2.1 + t.2.2) / 3 + 2/25,
     (t.1 + t.2.1 + t.2.2) / 3)
  | .none => t

/-- Contrast stage on one channel (lines 136-138): pivot at 0.5. -/
def contrastStage (k c : ℚ) : ℚ := (c - 1/2) * k + 1/2

/-- Contrast stage applied to all three channels. -/
def contrastTriple (k : ℚ) (t : ℚ × ℚ × ℚ) : ℚ × ℚ × ℚ :=
  (contrastStage k t.1, contrastStage k t.2.1, contrastStage k t.2.2)

/-- Luminance of a normalized channel triple (line 141). -/
def lumOfTriple (t : ℚ × ℚ × ℚ) : ℚ :=
  299/1000 * t.1 + 587/1000 * t.2.1 + 114/1000 * t.2.2

/-- Luminance-preserving saturation stage (lines 141-145):
`c = lum + (c - lum) * s` per channel. -/
def satTriple (s : ℚ) (t : ℚ × ℚ × ℚ) : ℚ × ℚ × ℚ :=
  (lumOfTriple t + (t.1 - lumOfTriple t) * s,
   lumOfTriple t + (t.2.1 - lumOfTriple t) * s,
   lumOfTriple t + (t.2.2 - lumOfTriple t) * s)

/-- Scale a normalized triple back to 8-bit range and clamp (lines 143-145). -/
def clamp255 (t : ℚ × ℚ × ℚ) : ℚ × ℚ × ℚ :=
  (clampCh (t.1 * 255), clampCh (t.2.1 * 255), clampCh (t.2.2 * 255))

/-- Temperature offset (line 110): `temp / 800`. -/
def tOffset (cfg : Config) : ℚ := cfg.temp / 800

/-- The original pixel, normalized to `[0,1]` (used by the blend,
lines 114-116). -/
def origTriple (img : Raster) (x y : Nat) : ℚ × ℚ × ℚ :=
  (img.data ((y * img.width + x) * 4) / 255,
   img.data ((y * img.width + x) * 4 + 1) / 255,
   img.data ((y * img.width + x) * 4 + 2) / 255)

/-- The semantic target of pixel `(x, y)` before the temperature offset. -/
def rawTarget (img : Raster) (cfg : Config) (x y : Nat) : ℚ × ℚ × ℚ :=
  target cfg.engine (lum img x y) (entropyUsed img x y) ((y : ℚ) / (img.height : ℚ))

/-- The full per-pixel pipeline of the shipped service, in source order:
engine-specific semantic target, temperature offset on the target, intensity
blend with the original, grading, contrast, saturation with factor
`saturation * colorWeight`, scale and clamp. -/
def pixel (img : Raster) (cfg : Config) (x y : Nat) : ℚ × ℚ × ℚ :=
  clamp255 (satTriple (cfg.saturation * colorWeight cfg.engine)
    (contrastTriple cfg.contrast
      (grade cfg.grading
        (blendStage cfg.intensity (origTriple img x y)
          (tempStage (tOffset cfg) (rawTarget img cfg x y))))))

/-- The whole colorization pass: every RGB channel of every pixel is replaced
by the pipeline output; alpha and dimensions are untouched.  The JS loop only
reads each pixel's own original channels plus the precomputed luminance and
entropy maps, so the in-place mutation is equivalent to this per-pixel
function of the input. -/
def colorize (img : Raster) (cfg : Config) : Raster :=
  { width := img.width
    height := img.height
    data := fun i =>
      if i < img.width * img.height * 4 ∧ i % 4 < 3 then
        if i % 4 = 0 then (pixel img cfg (i / 4 % img.width) (i / 4 / img.width)).1
        else if i % 4 = 1 then (pixel img cfg (i / 4 % img.width) (i / 4 / img.width)).2.1
        else (pixel img cfg (i / 4 % img.width) (i / 4 / img.width)).2.2
      else img.data i }

/-- Modelled from the spec: the per-pixel pipeline with the stage order the
specification states (blend with the original first, then the temperature
offset, then grading, contrast, saturation); for comparison with `RS.pixel`,
which applies the temperature offset to the target before blending. -/
def specOrderPixel (img : Raster) (cfg : Config) (x y : Nat) : ℚ × ℚ × ℚ :=
  clamp255 (satTriple (cfg.saturation * colorWeight cfg.engine)
    (contrastTriple cfg.contrast
      (grade cfg.grading
        (tempStage (tOffset cfg)
          (blendStage cfg.intensity (origTriple img x y) (rawTarget img cfg x y))))))

/-- The shipped pipeline rewritten with the blend first and the temperature
offset scaled by the intensity; proved below to agree with `RS.pixel`. -/
def amendedOrderPixel (img : Raster) (cfg : Config) (x y : Nat) : ℚ × ℚ × ℚ :=
  clamp255 (satTriple (cfg.saturation * colorWeight cfg.engine)
    (contrastTriple cfg.contrast
      (grade cfg.grading
        (tempStage (tOffset cfg * cfg.intensity)
          (blendStage cfg.intensity (origTriple img x y) (rawTarget img cfg x y))))))

end RS

namespace V3

/-- Engine red weight (part_007 third variant, lines 365-373). -/
def weightR : RS.Engine → ℚ
  | .opencv => 23/20
  | .paddlehub => 21/20
  | .«local» => 1

/-- Engine green weight (part_007 third variant, lines 365-373). -/
def weightG : RS.Engine → ℚ
  | .opencv => 19/20
  | .paddlehub => 6/5
  | .«local» => 1

/-- Engine blue weight (part_007 third variant, lines 365-373). -/
def weightB : RS.Engine → ℚ
  | .opencv => 9/10
  | .paddlehub => 11/10
  | .«local» => 1

/-- The semantic color-target chain of the v11-style variant
(part_007 third variant, lines 389-408): an ordered if/else-if chain over
luminance `L`, `entropy`, and normalized positions `xPos`, `yPos`; each branch
multiplies its base triple by the engine weights. -/
def semanticTarget (eng : RS.Engine) (L entropy xPos yPos : ℚ) : ℚ × ℚ × ℚ :=
  if L < 1/10 then
    (L * (4/5) * weightR eng, L * (17/20) * weightG eng, L * (13/10) * weightB eng)
  else if yPos < 9/20 ∧ entropy < 15 ∧ L > 2/5 then
    let horizonWeight := yPos / (9/20)
    (L * (3/5 + horizonWeight * (1/5)) * weightR eng,
     L * (4/5 + horizonWeight * (1/10)) * weightG eng,
     L * (8/5) * weightB eng)
  else if entropy > 25 ∧ L < 7/10 ∧ yPos > 3/10 then
    (L * (9/10) * weightR eng, L * (7/5) * weightG eng, L * (7/10) * weightB eng)
  else if L > 1/4 ∧ L < 17/20 ∧ xPos > 1/5 ∧ xPos < 4/5 then
    (L * (27/20) * weightR eng, L * (11/10) * weightG eng, L * (9/10) * weightB eng)
  else
    (L * (21/20) * weightR eng, L * (51/50) * weightG eng, L * (19/20) * weightB eng)

/-- Semantic region labels for the five branches of the chain. -/
inductive Region
  | shadow
  | sky
  | foliage
  | skin
  | neutral
deriving DecidableEq

/-- The region selected by the ordered guards, first match wins. -/
def regionOf (L entropy xPos yPos : ℚ) : Region :=
  if L < 1/10 then Region.shadow
  else if yPos < 9/20 ∧ entropy < 15 ∧ L > 2/5 then Region.sky
  else if entropy > 25 ∧ L < 7/10 ∧ yPos > 3/10 then Region.foliage
  else if L > 1/4 ∧ L < 17/20 ∧ xPos > 1/5 ∧ xPos < 4/5 then Region.skin
  else Region.neutral

/-- The base color triple each region assigns, before engine weighting: a
cool-biased deep-shadow target, a horizon-ramped sky target, a green-biased
foliage target, a fixed warm subject/skin target, and a slightly warm neutral
default. -/
def regionBase : Region → ℚ → ℚ → ℚ × ℚ × ℚ
  | Region.shadow, L, _ => (L * (4/5), L * (17/20), L * (13/10))
  | Region.sky, L, yPos =>
    (L * (3/5 + yPos / (9/20) * (1/5)), L * (4/5 + yPos / (9/20) * (1/10)), L * (8/5))
  | Region.foliage, L, _ => (L * (9/10), L * (7/5), L * (7/10))
  | Region.skin, L, _ => (L * (27/20), L * (11/10), L * (9/10))
  | Region.neutral, L, _ => (L * (21/20), L * (51/50), L * (19/20))

/-- Modelled from the spec's wording of the mapping, amended to the fixed warm
skin multipliers: pick the region by the ordered guards, apply its base
formula, then scale channelwise by the engine weights. -/
def targetSpec (eng : RS.Engine) (L entropy xPos yPos : ℚ) : ℚ × ℚ × ℚ :=
  let base := regionBase (regionOf L entropy xPos yPos) L yPos
  (base.1 * weightR eng, base.2.1 * weightG eng, base.2.2 * weightB eng)

end V3

/-! ### Shared helper lemmas -/

theorem clampCh_nonneg (v : ℚ) : 0 ≤ RS.clampCh v :=
  le_min (by norm_num) (le_max_left 0 v)

theorem clampCh_le (v : ℚ) : RS.clampCh v ≤ 255 :=
  min_le_left _ _

theorem clampCh_eq {v : ℚ} (h0 : 0 ≤ v) (h255 : v ≤ 255) : RS.clampCh v = v := by
  unfold RS.clampCh
  rw [max_eq_right h0, min_eq_right h255]

/-- Blending with a temperature-shifted target equals blending first and then
shifting by the intensity-scaled offset. -/
theorem blend_temp_swap (inten off : ℚ) (o t : ℚ × ℚ × ℚ) :
    RS.blendStage inten o (RS.tempStage off t)
      = RS.tempStage (off * inten) (RS.blendStage inten o t) := by
  simp only [RS.blendStage, RS.tempStage, Prod.mk.injEq]
  refine ⟨by ring, by trivial, by ring⟩

theorem satTriple_one (t : ℚ × ℚ × ℚ) : RS.satTriple 1 t = t := by
  simp only [RS.satTriple, mul_one, add_sub_cancel]

theorem contrastTriple_one (t : ℚ × ℚ × ℚ) : RS.contrastTriple 1 t = t := by
  simp only [RS.contrastTriple, RS.contrastStage, mul_one, sub_add_cancel]

theorem blendStage_zero (o t : ℚ × ℚ × ℚ) : RS.blendStage 0 o t = o := by
  simp only [RS.blendStage, sub_zero, mul_one, mul_zero, add_zero]

/-- On a channel-valid raster, scaling the normalized original back up and
clamping recovers the original channels. -/
theorem clamp255_orig (img : RS.Raster) (hv : img.valid) (x y : Nat) :
    RS.clamp255 (RS.origTriple img x y)
      = (img.data ((y * img.width + x) * 4),
         img.data ((y * img.width + x) * 4 + 1),
         img.data ((y * img.width + x) * 4 + 2)) := by
  simp only [RS.clamp255, RS.origTriple, Prod.mk.injEq]
  refine ⟨?_, ?_, ?_⟩ <;>
    · rw [div_mul_cancel₀ _ (by norm_num : (255 : ℚ) ≠ 0)]
      exact clampCh_eq (hv _).1 (hv _).2

/-- With all-neutral parameters and the 'local' engine, the per-pixel pipeline
returns the original channels. -/
theorem pixel_neutral (img : RS.Raster) (hv : img.valid) (cfg : RS.Config)
    (h2 : cfg.saturation = 1) (h3 : cfg.contrast = 1) (h4 : cfg.intensity = 0)
    (h5 : cfg.grading = RS.Grading.none) (h6 : cfg.engine = RS.Engine.«local»)
    (x y : Nat) :
    RS.pixel img cfg x y
      = (img.data ((y * img.width + x) * 4),
         img.data ((y * img.width + x) * 4 + 1),
         img.data ((y * img.width + x) * 4 + 2)) := by
  unfold RS.pixel
  rw [h2, h4, h5, h6, blendStage_zero]
  show RS.clamp255 (RS.satTriple (1 * RS.colorWeight RS.Engine.«local»)
    (RS.contrastTriple cfg.contrast (RS.grade RS.Grading.none (RS.origTriple img x y)))) = _
  rw [h3, contrastTriple_one]
  show RS.clamp255 (RS.satTriple (1 * 1) (RS.origTriple img x y)) = _
  rw [one_mul, satTriple_one, clamp255_orig img hv x y]

/-- Reading an in-range RGB channel of the colorized output yields the
corresponding component of the per-pixel pipeline. -/
theorem colorize_data_chan (img : RS.Raster) (cfg : RS.Config) (p c : Nat)
    (hp : p < img.width * img.height) (hc : c < 3) :
    (RS.colorize img cfg).data (4 * p + c)
      = (if c = 0 then (RS.pixel img cfg (p % img.width) (p / img.width)).1
         else if c = 1 then (RS.pixel img cfg (p % img.width) (p / img.width)).2.1
         else (RS.pixel img cfg (p % img.width) (p / img.width)).2.2) := by
  have hidx : (4 * p + c) / 4 = p := by omega
  have hmod : (4 * p + c) % 4 = c := by omega
  have hlt : 4 * p + c < img.width * img.height * 4 := by
    set n := img.width * img.height
    omega
  show (if 4 * p + c < img.width * img.height * 4 ∧ (4 * p + c) % 4 < 3 then _ else _) = _
  rw [hmod, hidx, if_pos ⟨hlt, hc⟩]

/-- With saturation factor 0 all three pipeline outputs coincide. -/
theorem pixel_sat_zero (img : RS.Raster) (cfg : RS.Config) (hs : cfg.saturation = 0)
    (x y : Nat) :
    (RS.pixel img cfg x y).1 = (RS.pixel img cfg x y).2.1
      ∧ (RS.pixel img cfg x y).2.1 = (RS.pixel img cfg x y).2.2 := by
  unfold RS.pixel RS.clamp255 RS.satTriple
  rw [hs, zero_mul]
  simp only [mul_zero, add_zero]
  trivial

/-- Each component of the per-pixel pipeline lies in `[0, 255]`. -/
theorem pixel_bounds (img : RS.Raster) (cfg : RS.Config) (x y : Nat) :
    (0 ≤ (RS.pixel img cfg x y).1 ∧ (RS.pixel img cfg x y).1 ≤ 255)
      ∧ (0 ≤ (RS.pixel img cfg x y).2.1 ∧ (RS.pixel img cfg x y).2.1 ≤ 255)
      ∧ (0 ≤ (RS.pixel img cfg x y).2.2 ∧ (RS.pixel img cfg x y).2.2 ≤ 255) := by
  unfold RS.pixel RS.clamp255
  exact ⟨⟨clampCh_nonneg _, clampCh_le _⟩, ⟨clampCh_nonneg _, clampCh_le _⟩,
    ⟨clampCh_nonneg _, clampCh_le _⟩⟩

/-! ### Concrete rasters and configurations -/

/-- A 1-by-1 mid-gray pixel (128, 128, 128, 255). -/
def imgGray1 : RS.Raster :=
  ⟨1, 1, fun i => if i % 4 = 3 then 255 else 128⟩

/-- A 2-by-2 uniform mid-gray image (128, 128, 128, 255). -/
def imgGray4 : RS.Raster :=
  ⟨2, 2, fun i => if i % 4 = 3 then 255 else 128⟩

/-- A 5-by-5 image that is black except for a white pixel at (1, 1). -/
def imgSpot5 : RS.Raster :=
  ⟨5, 5, fun i => if 24 ≤ i ∧ i ≤ 26 then 255 else if i % 4 = 3 then 255 else 0⟩

/-- A 1-by-1 reddish pixel (128, 64, 64, 255). -/
def imgRed1 : RS.Raster :=
  ⟨1, 1, fun i => if i % 4 = 3 then 255 else if i % 4 = 0 then 128 else 64⟩

/-- The 0-by-0 raster. -/
def rasterZero : RS.Raster := ⟨0, 0, fun _ => 0⟩

/-- The spec's default configuration (temp 15, saturation 1.25, contrast 1.15,
intensity 1, grading none, engine local). -/
def cfgDefault : RS.Config := ⟨15, 5/4, 23/20, 1, RS.Grading.none, RS.Engine.«local»⟩

/-- Neutral parameters except a warm temperature, and intensity 0. -/
def cfgWarmZero : RS.Config := ⟨80, 1, 1, 0, RS.Grading.none, RS.Engine.«local»⟩

/-- All-neutral parameters with the 'paddlehub' engine. -/
def cfgNeutralPaddle : RS.Config := ⟨0, 1, 1, 0, RS.Grading.none, RS.Engine.paddlehub⟩

/-- All-neutral parameters with the 'local' engine. -/
def cfgNeutralLocal : RS.Config := ⟨0, 1, 1, 0, RS.Grading.none, RS.Engine.«local»⟩

/-- The default configuration with the sepia grading preset. -/
def cfgSepia : RS.Config := ⟨15, 5/4, 23/20, 1, RS.Grading.sepia, RS.Engine.«local»⟩

/-- A configuration with saturation 0. -/
def cfgSatZero : RS.Config := ⟨15, 0, 23/20, 1, RS.Grading.none, RS.Engine.«local»⟩

/-- A 1-by-1 raster with every channel (alpha included) equal to 128. -/
def imgFlat : RS.Raster := ⟨1, 1, fun _ => 128⟩

theorem imgFlat_valid : imgFlat.valid := by
  intro i
  refine ⟨?_, ?_⟩ <;> norm_num [imgFlat]

/-- Reading the red channel of pixel `p` of the output. -/
theorem colorize_data_r (img : RS.Raster) (cfg : RS.Config) (p : Nat)
    (hp : p < img.width * img.height) :
    (RS.colorize img cfg).data (4 * p)
      = (RS.pixel img cfg (p % img.width) (p / img.width)).1 := by
  have hidx : 4 * p / 4 = p := by omega
  have hmod : 4 * p % 4 = 0 := by omega
  have hlt : 4 * p < img.width * img.height * 4 := by
    set n := img.width * img.height
    omega
  show (if 4 * p < img.width * img.height * 4 ∧ 4 * p % 4 < 3 then _ else _) = _
  rw [hmod, hidx, if_pos ⟨hlt, by norm_num⟩, if_pos rfl]

/-- Reading the green channel of pixel `p` of the output. -/
theorem colorize_data_g (img : RS.Raster) (cfg : RS.Config) (p : Nat)
    (hp : p < img.width * img.height) :
    (RS.colorize img cfg).data (4 * p + 1)
      = (RS.pixel img cfg (p % img.width) (p / img.width)).2.1 := by
  have hidx : (4 * p + 1) / 4 = p := by omega
  have hmod : (4 * p + 1) % 4 = 1 := by omega
  have hlt : 4 * p + 1 < img.width * img.height * 4 := by
    set n := img.width * img.height
    omega
  show (if 4 * p + 1 < img.width * img.height * 4 ∧ (4 * p + 1) % 4 < 3 then _ else _) = _
  rw [hmod, hidx, if_pos ⟨hlt, by norm_num⟩, if_neg (by norm_num), if_pos rfl]

/-- Reading the blue channel of pixel `p` of the output. -/
theorem colorize_data_b (img : RS.Raster) (cfg : RS.Config) (p : Nat)
    (hp : p < img.width * img.height) :
    (RS.colorize img cfg).data (4 * p + 2)
      = (RS.pixel img cfg (p % img.width) (p / img.width)).2.2 := by
  have hidx : (4 * p + 2) / 4 = p := by omega
  have hmod : (4 * p + 2) % 4 = 2 := by omega
  have hlt : 4 * p + 2 < img.width * img.height * 4 := by
    set n := img.width * img.height
    omega
  show (if 4 * p + 2 < img.width * img.height * 4 ∧ (4 * p + 2) % 4 < 3 then _ else _) = _
  rw [hmod, hidx, if_pos ⟨hlt, by norm_num⟩, if_neg (by norm_num), if_neg (by norm_num)]

/-! ### Claim C1 -/

/-- Claim C1, counterexample: in the cited chain (part_007 third variant) the
subject/skin branch carries no radial weight at all.  Two pixels with the same
luminance and entropy, both inside the skin guards but at different distances
from the image center, receive exactly the same target triple, refuting the
claimed "radial warm weight peaking near the image center". -/
theorem claim1_counterexample :
    V3.semanticTarget RS.Engine.«local» (1/2) 20 (1/2) (1/2)
        = V3.semanticTarget RS.Engine.«local» (1/2) 20 (3/4) (3/4)
      ∧ ((1/2 : ℚ) - 1/2) ^ 2 + ((1/2 : ℚ) - 1/2) ^ 2
          ≠ ((3/4 : ℚ) - 1/2) ^ 2 + ((3/4 : ℚ) - 1/2) ^ 2 :=
  ⟨by norm_num [V3.semanticTarget, V3.weightR, V3.weightG, V3.weightB], by norm_num⟩

/-- Claim C1 (amended): the semantic color-target mapping is the fixed ordered
if/else-if chain over `L`, position and entropy in which the first matching
branch wins: deep shadow when `L < 0.10` (cool-biased), else sky when
`yPos < 0.45` and entropy below 15 and `L > 0.4` (horizon-ramped), else
textured foliage when entropy above 25 and `L < 0.7` and `yPos > 0.3`, else
subject/skin when `0.25 < L < 0.85` and `0.2 < xPos < 0.8` with fixed warm
multipliers (1.35, 1.1, 0.9) independent of the distance from the center, else
a neutral warm default; each branch is scaled channelwise by the engine
weights. -/
theorem claim1_semantic_chain : ∀ (eng : RS.Engine) (L entropy xPos yPos : ℚ),
    V3.semanticTarget eng L entropy xPos yPos = V3.targetSpec eng L entropy xPos yPos := by
  intro eng L entropy xPos yPos
  unfold V3.semanticTarget V3.targetSpec V3.regionOf
  split_ifs <;> rfl

/-! ### Claim C2 -/

/-- Claim C2, counterexample: the pipeline with the claimed stage order (blend
first, then temperature) disagrees with the shipped pipeline, which adds the
temperature offset to the semantic target before blending.  At intensity 0 and
temperature 80 the shipped service returns the original mid-gray pixel while
the claimed order would shift it. -/
theorem claim2_counterexample :
    RS.specOrderPixel imgGray1 cfgWarmZero 0 0 ≠ RS.pixel imgGray1 cfgWarmZero 0 0 := by
  norm_num [RS.specOrderPixel, RS.pixel, RS.clamp255, RS.clampCh, RS.satTriple,
    RS.lumOfTriple, RS.contrastTriple, RS.contrastStage, RS.grade, RS.blendStage,
    RS.tempStage, RS.tOffset, RS.origTriple, RS.rawTarget, RS.target, RS.lum,
    RS.entropyUsed, RS.entropyRaw, RS.colorWeight, imgGray1, cfgWarmZero, Prod.mk.injEq]

/-- Claim C2 (amended): in the shipped service the temperature offset is
applied to the semantic target before the intensity blend — equivalently, the
pipeline is blend, then a temperature offset scaled by the intensity, then
grading, then contrast pivoted at 0.5, then luminance-preserving
saturation, in that order. -/
theorem claim2_stage_order : ∀ (img : RS.Raster) (cfg : RS.Config) (x y : Nat),
    RS.pixel img cfg x y = RS.amendedOrderPixel img cfg x y := by
  intro img cfg x y
  unfold RS.pixel RS.amendedOrderPixel
  rw [blend_temp_swap]

/-! ### Claim C7 -/

/-- Claim C7: with saturation = 0 every output pixel is grayscale — its R, G
and B channels are equal — for every input image and every other config
value. -/
theorem claim7_saturation_zero_grayscale :
    ∀ (img : RS.Raster) (cfg : RS.Config), cfg.saturation = 0 →
    ∀ p, p < img.width * img.height →
      (RS.colorize img cfg).data (4 * p) = (RS.colorize img cfg).data (4 * p + 1)
        ∧ (RS.colorize img cfg).data (4 * p + 1) = (RS.colorize img cfg).data (4 * p + 2) := by
  intro img cfg hs p hp
  rw [colorize_data_r img cfg p hp, colorize_data_g img cfg p hp, colorize_data_b img cfg p hp]
  exact pixel_sat_zero img cfg hs _ _

/-- Witness for claim C7 at a concrete reddish pixel and saturation 0. -/
theorem claim7_witness :
    (RS.colorize imgRed1 cfgSatZero).data 0 = (RS.colorize imgRed1 cfgSatZero).data 1 :=
  (claim7_saturation_zero_grayscale imgRed1 cfgSatZero rfl 0 (by norm_num [imgRed1])).1

/-! ### Claim C8 -/

/-- Claim C8: the contrast stage leaves a channel exactly at mid-gray (0.5
normalized) unchanged, for every contrast value. -/
theorem claim8_contrast_pivot : ∀ k : ℚ, RS.contrastStage k (1/2) = 1/2 := by
  intro k
  unfold RS.contrastStage
  ring

/-! ### Claim C3 -/

theorem imgRed1_lum : RS.lum imgRed1 0 0 = 10392/31875 := by
  norm_num [RS.lum, imgRed1]

theorem imgRed1_ent : RS.entropyUsed imgRed1 0 0 = 1/20 := by
  norm_num [RS.entropyUsed, RS.entropyRaw, imgRed1]

theorem imgRed1_rawTarget : RS.rawTarget imgRed1 cfgNeutralPaddle 0 0
    = (5196/10625, 19918/53125, 15588/53125) := by
  unfold RS.rawTarget
  rw [imgRed1_lum, imgRed1_ent]
  norm_num [RS.target, cfgNeutralPaddle, Prod.mk.injEq]

theorem imgRed1_pixel : RS.pixel imgRed1 cfgNeutralPaddle 0 0
    = (17402/125, 7402/125, 7402/125) := by
  unfold RS.pixel
  rw [imgRed1_rawTarget]
  norm_num [RS.clamp255, RS.clampCh, RS.satTriple, RS.lumOfTriple, RS.contrastTriple,
    RS.contrastStage, RS.grade, RS.blendStage, RS.tempStage, RS.tOffset, RS.origTriple,
    RS.colorWeight, imgRed1, cfgNeutralPaddle, Prod.mk.injEq]

/-- Claim C3, counterexample: with all the neutral parameters of the claim but
engine = 'paddlehub', the saturation factor is `1 * 1.25`, so a reddish pixel
(128, 64, 64) is changed even though intensity = 0, contrast = 1,
saturation = 1, temperature = 0 and grading = none; the claim's "for every
engine value" fails. -/
theorem claim3_counterexample :
    (RS.colorize imgRed1 cfgNeutralPaddle).data 0 ≠ imgRed1.data 0 := by
  have hr : (RS.colorize imgRed1 cfgNeutralPaddle).data 0
      = (RS.pixel imgRed1 cfgNeutralPaddle 0 0).1 := by
    simpa [imgRed1] using colorize_data_r imgRed1 cfgNeutralPaddle 0 (by norm_num [imgRed1])
  rw [hr, imgRed1_pixel]
  norm_num [imgRed1]

/-- Claim C3 (amended): with intensity = 0, contrast = 1, saturation = 1,
temperature = 0, grading = none AND engine = 'local' (so that the
engine-dependent saturation weight is 1), the output equals the input exactly,
every pixel and every channel, alpha included, for every channel-valid input
raster. -/
theorem claim3_neutral_identity : ∀ img : RS.Raster, img.valid → ∀ cfg : RS.Config,
    cfg.temp = 0 → cfg.saturation = 1 → cfg.contrast = 1 → cfg.intensity = 0 →
    cfg.grading = RS.Grading.none → cfg.engine = RS.Engine.«local» →
    (RS.colorize img cfg).width = img.width ∧ (RS.colorize img cfg).height = img.height
      ∧ ∀ i, (RS.colorize img cfg).data i = img.data i := by
  intro img hv cfg _h1 h2 h3 h4 h5 h6
  refine ⟨rfl, rfl, fun i => ?_⟩
  by_cases h : i < img.width * img.height * 4 ∧ i % 4 < 3
  · obtain ⟨hlt, hmod⟩ := h
    have hp : i / 4 < img.width * img.height := by
      set n := img.width * img.height
      omega
    have hxy : i / 4 / img.width * img.width + i / 4 % img.width = i / 4 := by
      rw [Nat.mul_comm]
      exact Nat.div_add_mod _ _
    have hbase := pixel_neutral img hv cfg h2 h3 h4 h5 h6 (i / 4 % img.width) (i / 4 / img.width)
    have hcases : i % 4 = 0 ∨ i % 4 = 1 ∨ i % 4 = 2 := by omega
    rcases hcases with hc | hc | hc
    · have hr := colorize_data_r img cfg (i / 4) hp
      have hi : 4 * (i / 4) = i := by omega
      rw [hi] at hr
      rw [hr, hbase]
      show img.data ((i / 4 / img.width * img.width + i / 4 % img.width) * 4) = img.data i
      rw [hxy]
      congr 1
      omega
    · have hg := colorize_data_g img cfg (i / 4) hp
      have hi : 4 * (i / 4) + 1 = i := by omega
      rw [hi] at hg
      rw [hg, hbase]
      show img.data ((i / 4 / img.width * img.width + i / 4 % img.width) * 4 + 1) = img.data i
      rw [hxy]
      congr 1
      omega
    · have hb := colorize_data_b img cfg (i / 4) hp
      have hi : 4 * (i / 4) + 2 = i := by omega
      rw [hi] at hb
      rw [hb, hbase]
      show img.data ((i / 4 / img.width * img.width + i / 4 % img.width) * 4 + 2) = img.data i
      rw [hxy]
      congr 1
      omega
  · show (if i < img.width * img.height * 4 ∧ i % 4 < 3 then _ else img.data i) = img.data i
    exact if_neg h

/-- Witness for claim C3 on a concrete valid 1-by-1 raster. -/
theorem claim3_witness : (RS.colorize imgFlat cfgNeutralLocal).data 0 = imgFlat.data 0 :=
  (claim3_neutral_identity imgFlat imgFlat_valid cfgNeutralLocal
    rfl rfl rfl rfl rfl rfl).2.2 0

/-! ### Claim C4 -/

/-- Claim C4, counterexample: the shipped code contains no width/height
validation at all.  On the 0-by-0 raster, `colorize` completes and returns the
raster unchanged — an output is produced and no error is raised, contrary to
the claimed ProcessingError. -/
theorem claim4_counterexample :
    (RS.colorize rasterZero cfgDefault).width = 0
      ∧ (RS.colorize rasterZero cfgDefault).height = 0
      ∧ (RS.colorize rasterZero cfgDefault).data 0 = rasterZero.data 0 := by
  refine ⟨rfl, rfl, ?_⟩
  norm_num [RS.colorize, rasterZero]

/-- Claim C4 (amended): `colorize` performs no width/height validation; on a
raster with zero pixels the per-pixel loops run zero iterations, so it
terminates normally and returns the raster unchanged, producing no error (and
no non-finite intermediate values, since positional divisions are only
evaluated for in-range pixels). -/
theorem claim4_zero_dims_passthrough : ∀ (w h : Nat) (d : Nat → ℚ) (cfg : RS.Config),
    w * h = 0 →
    (RS.colorize ⟨w, h, d⟩ cfg).width = w ∧ (RS.colorize ⟨w, h, d⟩ cfg).height = h
      ∧ ∀ i, (RS.colorize ⟨w, h, d⟩ cfg).data i = d i := by
  intro w h d cfg hwh
  refine ⟨rfl, rfl, fun i => ?_⟩
  show (if i < w * h * 4 ∧ i % 4 < 3 then _ else d i) = d i
  have hn : ¬(i < w * h * 4 ∧ i % 4 < 3) := by
    rintro ⟨hlt, -⟩
    rw [hwh] at hlt
    omega
  exact if_neg hn

/-- A constant data buffer used to witness claim C4. -/
def dSeven : Nat → ℚ := fun _ => 7

/-- Witness for claim C4 at a concrete 0-by-3 raster. -/
theorem claim4_witness : (RS.colorize ⟨0, 3, dSeven⟩ cfgDefault).data 5 = 7 :=
  (claim4_zero_dims_passthrough 0 3 dSeven cfgDefault rfl).2.2 5

/-! ### Claim C5 -/

/-- Claim C5, counterexample: in the shipped service the entropy pass
subsamples every other pixel even on a small image (width 5, far below any
1000-1200 threshold), and the skipped pixel (2, 1) reads the constant fallback
0.05 — not the last computed value, which is 2 at the neighboring computed
pixel (1, 1). -/
theorem claim5_counterexample :
    imgSpot5.width ≤ 1000 ∧ RS.entropyUsed imgSpot5 2 1 = 1/20
      ∧ RS.entropyRaw imgSpot5 1 1 = 2 ∧ ((1 : ℚ)/20 ≠ 2) := by
  refine ⟨by norm_num [imgSpot5], ?_, ?_, by norm_num⟩
  · norm_num [RS.entropyUsed, RS.entropyRaw, imgSpot5]
  · norm_num [RS.entropyRaw, RS.lum, imgSpot5]

/-- Claim C5 (amended): the shipped analysis pass computes entropy only at
interior pixels with odd x and odd y — every other pixel, regardless of image
width — and every pixel outside that grid reads the constant fallback 0.05
when consumed, not a nearest-neighbor fill. -/
theorem claim5_subsample_constant_fallback : ∀ (img : RS.Raster) (x y : Nat),
    ¬(x % 2 = 1 ∧ y % 2 = 1 ∧ x + 1 < img.width ∧ y + 1 < img.height) →
    RS.entropyUsed img x y = 1/20 := by
  intro img x y h
  unfold RS.entropyUsed RS.entropyRaw
  rw [if_neg h]
  norm_num

/-- Witness for claim C5 at the skipped pixel (2, 1) of the concrete image. -/
theorem claim5_witness : RS.entropyUsed imgSpot5 2 1 = 1/20 :=
  claim5_subsample_constant_fallback imgSpot5 2 1 (by norm_num [imgSpot5])

/-! ### Claim C6 -/

/-- Claim C6, counterexample: the shipped sepia grading adds 0.15 and 0.08, not
the claimed 0.2 and 0.1: on the mid-gray triple (0.5, 0.5, 0.5) with grey 0.5
it yields (0.65, 0.58, 0.5), not (0.7, 0.6, 0.5). -/
theorem claim6_counterexample :
    RS.grade RS.Grading.sepia (1/2, 1/2, 1/2) ≠ (1/2 + 1/5, 1/2 + 1/10, 1/2) := by
  norm_num [RS.grade, Prod.mk.injEq]

theorem imgGray4_lum : ∀ x y : Nat, x < 2 → y < 2 → RS.lum imgGray4 x y = 128/255 := by
  intro x y hx hy
  interval_cases x <;> interval_cases y <;> norm_num [RS.lum, imgGray4]

theorem imgGray4_ent : ∀ x y : Nat, x < 2 → y < 2 → RS.entropyUsed imgGray4 x y = 1/20 := by
  intro x y hx hy
  interval_cases x <;> interval_cases y <;>
    norm_num [RS.entropyUsed, RS.entropyRaw, imgGray4]

theorem imgGray4_rawTarget : ∀ x y : Nat, x < 2 → y < 2 →
    RS.rawTarget imgGray4 cfgSepia x y = (736/1275, 224/425, 192/425) := by
  intro x y hx hy
  unfold RS.rawTarget
  rw [imgGray4_lum x y hx hy, imgGray4_ent x y hx hy]
  norm_num [RS.target, cfgSepia, Prod.mk.injEq]

theorem imgGray4_pixel : ∀ x y : Nat, x < 2 → y < 2 →
    RS.pixel imgGray4 cfgSepia x y
      = (869929061/4800000, 746764061/4800000, 606004061/4800000) := by
  intro x y hx hy
  unfold RS.pixel
  rw [imgGray4_rawTarget x y hx hy]
  interval_cases x <;> interval_cases y <;>
    norm_num [RS.clamp255, RS.clampCh, RS.satTriple, RS.lumOfTriple, RS.contrastTriple,
      RS.contrastStage, RS.grade, RS.blendStage, RS.tempStage, RS.tOffset, RS.origTriple,
      RS.colorWeight, imgGray4, cfgSepia, Prod.mk.injEq]

/-- Claim C6 (amended): the shipped sepia grading sets R = grey + 0.15,
G = grey + 0.08, B = grey (grey the mean of the three channels) before
contrast and saturation, and consequently on a 2-by-2 uniform mid-gray input
with the default config and grading = sepia, every output pixel satisfies
R > G > B. -/
theorem claim6_sepia :
    (∀ t : ℚ × ℚ × ℚ, RS.grade RS.Grading.sepia t
        = ((t.1 + t.2.1 + t.2.2)/3 + 3/20, (t.1 + t.2.1 + t.2.2)/3 + 2/25,
           (t.1 + t.2.1 + t.2.2)/3))
      ∧ (∀ p, p < 4 →
          (RS.colorize imgGray4 cfgSepia).data (4 * p)
              > (RS.colorize imgGray4 cfgSepia).data (4 * p + 1)
            ∧ (RS.colorize imgGray4 cfgSepia).data (4 * p + 1)
              > (RS.colorize imgGray4 cfgSepia).data (4 * p + 2)) := by
  refine ⟨fun t => rfl, ?_⟩
  intro p hp
  have hw : p < imgGray4.width * imgGray4.height := by simpa [imgGray4] using hp
  have hpix := imgGray4_pixel (p % imgGray4.width) (p / imgGray4.width)
    (by simp only [imgGray4]; omega) (by simp only [imgGray4]; omega)
  rw [colorize_data_r imgGray4 cfgSepia p hw, colorize_data_g imgGray4 cfgSepia p hw,
    colorize_data_b imgGray4 cfgSepia p hw, hpix]
  norm_num

/-- Witness for claim C6 at the first pixel of the sepia scenario. -/
theorem claim6_witness :
    (RS.colorize imgGray4 cfgSepia).data 0 > (RS.colorize imgGray4 cfgSepia).data 1 :=
  (claim6_sepia.2 0 (by norm_num)).1

/-! ### Claim C9 -/

/-- Claim C9: for every config and every channel-valid input raster, every
channel of every output pixel lies within [0, 255] — `colorize` preserves the
RasterImage channel-range invariant (processed RGB channels are clamped;
alpha and out-of-range entries pass through the valid input). -/
theorem claim9_channel_bounds : ∀ (img : RS.Raster) (cfg : RS.Config),
    img.valid → (RS.colorize img cfg).valid := by
  intro img cfg hv
  intro i
  by_cases h : i < img.width * img.height * 4 ∧ i % 4 < 3
  · obtain ⟨hlt, hmod⟩ := h
    have hp : i / 4 < img.width * img.height := by
      set n := img.width * img.height
      omega
    have hb := pixel_bounds img cfg (i / 4 % img.width) (i / 4 / img.width)
    have hcases : i % 4 = 0 ∨ i % 4 = 1 ∨ i % 4 = 2 := by omega
    rcases hcases with hc | hc | hc
    · have hr := colorize_data_r img cfg (i / 4) hp
      have hi : 4 * (i / 4) = i := by omega
      rw [hi] at hr
      rw [hr]
      exact hb.1
    · have hg := colorize_data_g img cfg (i / 4) hp
      have hi : 4 * (i / 4) + 1 = i := by omega
      rw [hi] at hg
      rw [hg]
      exact hb.2.1
    · have hbl := colorize_data_b img cfg (i / 4) hp
      have hi : 4 * (i / 4) + 2 = i := by omega
      rw [hi] at hbl
      rw [hbl]
      exact hb.2.2
  · have hpass : (RS.colorize img cfg).data i = img.data i := if_neg h
    rw [hpass]
    exact hv i

/-- Witness for claim C9 on a concrete valid raster and the default config. -/
theorem claim9_witness :
    0 ≤ (RS.colorize imgFlat cfgDefault).data 0
      ∧ (RS.colorize imgFlat cfgDefault).data 0 ≤ 255 :=
  claim9_channel_bounds imgFlat cfgDefault imgFlat_valid 0

/-! ### Claim C10 -/

/-- Claim C10: in the shipped restoration service the saturation factor is
`saturation * colorWeight(engine)` with colorWeight 1.25 for 'paddlehub', 1.1
for 'opencv' and 1.0 for 'local'; the pipeline applies exactly that factor in
its saturation stage, and for every engine other than 'local', even with
saturation = 1 the saturation stage is not the identity. -/
theorem claim10_engine_saturation_weight :
    (RS.colorWeight RS.Engine.paddlehub = 5/4 ∧ RS.colorWeight RS.Engine.opencv = 11/10
        ∧ RS.colorWeight RS.Engine.«local» = 1)
      ∧ (∀ (img : RS.Raster) (cfg : RS.Config) (x y : Nat),
          RS.pixel img cfg x y
            = RS.clamp255 (RS.satTriple (cfg.saturation * RS.colorWeight cfg.engine)
                (RS.contrastTriple cfg.contrast
                  (RS.grade cfg.grading
                    (RS.blendStage cfg.intensity (RS.origTriple img x y)
                      (RS.tempStage (RS.tOffset cfg) (RS.rawTarget img cfg x y)))))))
      ∧ (∀ e : RS.Engine, e ≠ RS.Engine.«local» →
          RS.satTriple (1 * RS.colorWeight e) (1, 0, 0) ≠ ((1 : ℚ), (0 : ℚ), (0 : ℚ))) := by
  refine ⟨⟨rfl, rfl, rfl⟩, fun img cfg x y => rfl, ?_⟩
  intro e he
  cases e with
  | «local» => exact absurd rfl he
  | opencv =>
    norm_num [RS.satTriple, RS.lumOfTriple, RS.colorWeight, Prod.mk.injEq]
  | paddlehub =>
    norm_num [RS.satTriple, RS.lumOfTriple, RS.colorWeight, Prod.mk.injEq]

/-- Witness for claim C10 at the 'paddlehub' engine. -/
theorem claim10_witness :
    RS.satTriple (1 * RS.colorWeight RS.Engine.paddlehub) (1, 0, 0)
      ≠ ((1 : ℚ), (0 : ℚ), (0 : ℚ)) :=
  claim10_engine_saturation_weight.2.2 RS.Engine.paddlehub (by decide)
